import Mathlib

/-!
Shallow embedding of the combat core of the multiply-or-release repository
(src/battlefield.rs, src/collision_groups.rs, src/utils.rs, src/panel_plugin.rs).

Modelling conventions:
  - u64 values are modelled as Nat; every operation that can overflow or
    underflow in the source is guarded there (checked_mul, checked_sub, or a
    preceding min/zero test), and we reproduce those guards explicitly.
  - f32 timestamps (Time.elapsed_seconds, last_hit_timestamp) are exact
    binary32 values and are carried as exact rationals; where the cooldown
    comparison sits at the rounding boundary, the f32 subtraction is modelled
    explicitly by the binary32 rounding function rn32.
  - the f64 computation in Charge::calculate_level, namely
    (value as f64).log2().ceil() as u64 + 1, is modelled as the exact ceiling
    base-2 logarithm Nat.clog 2 plus 1; the two agree for small values (up to
    2 ^ 40) and at u64::MAX, but not over the whole u64 range (see the doc
    comment on Charge.calculate_level), and statements needing the exact
    ceiling stay within the faithful range (Nat.clog 2 0 = 0 also matches the
    saturating (-inf) as u64 = 0 cast for value = 0).
  - bevy ECS queries become explicit arguments; a fallible entity lookup
    (query.get) becomes an Option.
  - render colors are abstract handles, modelled as Nat.
-/

namespace MultiplyOrRelease

/-- Largest value representable in a u64. -/
def U64_MAX : Nat := 2 ^ 64 - 1

/-- Constant BOOSTED_TURRET_CHARGE_VALUE from battlefield.rs. -/
def BOOSTED_TURRET_CHARGE_VALUE : Nat := 16

/-- Constant TURRET_BOOST_COOLDOWN (seconds, f32 5.0 in the source). -/
def TURRET_BOOST_COOLDOWN : ℚ := 5

/-- Constant MULTI_SHOT_CHARGE_OFFSET from battlefield.rs. -/
def MULTI_SHOT_CHARGE_OFFSET : Nat := 8

/-- Enum Participant from utils.rs: one of four fixed identities. -/
inductive Participant
  | A
  | B
  | C
  | D
deriving DecidableEq

/-- Struct ParticipantMap from utils.rs: one value per participant. -/
structure ParticipantMap (T : Type) where
  a : T
  b : T
  c : T
  d : T
deriving DecidableEq

/-- Method ParticipantMap::get. -/
def ParticipantMap.get {T : Type} (m : ParticipantMap T) : Participant → T
  | .A => m.a
  | .B => m.b
  | .C => m.c
  | .D => m.d

/-- Method ParticipantMap::set. -/
def ParticipantMap.set {T : Type} (m : ParticipantMap T) :
    Participant → T → ParticipantMap T
  | .A, v => { m with a := v }
  | .B, v => { m with b := v }
  | .C, v => { m with c := v }
  | .D, v => { m with d := v }

/-- Abstract handle for a bevy render color (utils.rs TileColor payload). -/
abbrev ColorId := Nat

-- Collision group bitmasks from collision_groups.rs.  Group::GROUP_n is the
-- bitmask with only bit (n - 1) set.

/-- Group TILE_A = GROUP_4. -/
def TILE_A : Nat := 2 ^ 3
/-- Group TILE_B = GROUP_5. -/
def TILE_B : Nat := 2 ^ 4
/-- Group TILE_C = GROUP_6. -/
def TILE_C : Nat := 2 ^ 5
/-- Group TILE_D = GROUP_7. -/
def TILE_D : Nat := 2 ^ 6
/-- Group BULLET_A = GROUP_8. -/
def BULLET_A : Nat := 2 ^ 7
/-- Group BULLET_B = GROUP_9. -/
def BULLET_B : Nat := 2 ^ 8
/-- Group BULLET_C = GROUP_10. -/
def BULLET_C : Nat := 2 ^ 9
/-- Group BULLET_D = GROUP_11. -/
def BULLET_D : Nat := 2 ^ 10
/-- Group NEW_BULLET_A = GROUP_17. -/
def NEW_BULLET_A : Nat := 2 ^ 16
/-- Group NEW_BULLET_B = GROUP_18. -/
def NEW_BULLET_B : Nat := 2 ^ 17
/-- Group NEW_BULLET_C = GROUP_19. -/
def NEW_BULLET_C : Nat := 2 ^ 18
/-- Group NEW_BULLET_D = GROUP_20. -/
def NEW_BULLET_D : Nat := 2 ^ 19

/-- Function collision_groups::tile. -/
def tileGroup : Participant → Nat
  | .A => TILE_A
  | .B => TILE_B
  | .C => TILE_C
  | .D => TILE_D

/-- Function collision_groups::all_bullets_except. -/
def all_bullets_except : Participant → Nat
  | .A => BULLET_B ||| BULLET_C ||| BULLET_D
  | .B => BULLET_A ||| BULLET_C ||| BULLET_D
  | .C => BULLET_A ||| BULLET_B ||| BULLET_D
  | .D => BULLET_A ||| BULLET_B ||| BULLET_C

/-- Function collision_groups::all_new_bullets_except. -/
def all_new_bullets_except : Participant → Nat
  | .A => NEW_BULLET_B ||| NEW_BULLET_C ||| NEW_BULLET_D
  | .B => NEW_BULLET_A ||| NEW_BULLET_C ||| NEW_BULLET_D
  | .C => NEW_BULLET_A ||| NEW_BULLET_B ||| NEW_BULLET_D
  | .D => NEW_BULLET_A ||| NEW_BULLET_B ||| NEW_BULLET_C

/-- Struct CollisionGroups (bevy_rapier): membership and filter bitmasks. -/
structure CollisionGroups where
  memberships : Nat
  filters : Nat
deriving DecidableEq

/-- Struct Charge from battlefield.rs: raw value plus cached level tier. -/
structure Charge where
  value : Nat
  level : Nat
deriving DecidableEq

/-- Method Charge::calculate_level.  Source:
    (value as f64).log2().ceil() as u64 + 1,
    modelled as the exact ceiling base-2 logarithm plus 1.  The f64 pipeline
    computes this exact ceiling for small values, where the u64 to f64 cast is
    exact and log2 of a non-power-of-two lands many f64 ulps away from an
    integer (safely so for value up to 2 ^ 40), and also at u64::MAX, which
    casts to 2 ^ 64 with log2 exactly 64.  It does not over the whole u64
    range: value = 2 ^ 60 + 1 casts to 2 ^ 60, so the source yields level 61
    where the exact ceiling gives 62.  Statements that need the exact ceiling
    at a particular value therefore stay within the faithful range. -/
def Charge.calculate_level (value : Nat) : Nat :=
  Nat.clog 2 value + 1

/-- Method Charge::update_level: recompute the cached level from the value. -/
def Charge.update_level (c : Charge) : Charge :=
  { c with level := Charge.calculate_level c.value }

/-- Method Charge::from_value: build a charge and compute its level. -/
def Charge.from_value (value : Nat) : Charge :=
  Charge.update_level { value := value, level := 1 }

/-- Method Charge::multiply.  Source: checked_mul with the u8 factor widened
    to u64; on overflow the value saturates to u64::MAX.  The level field is
    not touched here. -/
def Charge.multiply (c : Charge) (factor : Nat) : Charge :=
  if c.value * factor ≤ U64_MAX then
    { c with value := c.value * factor }
  else
    { c with value := U64_MAX }

/-- Method Charge::reset_boosted. -/
def Charge.reset_boosted (c : Charge) : Charge :=
  Charge.update_level { c with value := BOOSTED_TURRET_CHARGE_VALUE }

/-- Method Charge::reset. -/
def Charge.reset (_c : Charge) : Charge :=
  { value := 1, level := 1 }

/-- Enum ShotType from battlefield.rs. -/
inductive ShotType
  | Charged
  | Multi
deriving DecidableEq

/-- Struct Turret from battlefield.rs: the firing queue (front of the VecDeque
    is the list head, the back is the list tail) and the last hit timestamp. -/
structure Turret where
  firing_queue : List (ShotType × Charge)
  last_hit_timestamp : ℚ
deriving DecidableEq

/-- Function Turret::default: empty queue, timestamp minus the cooldown. -/
def Turret.default : Turret :=
  { firing_queue := [], last_hit_timestamp := -TURRET_BOOST_COOLDOWN }

/-- The pair of components (Charge, Turret) carried by a turret entity, as
    matched by the query in handle_trigger_events. -/
structure TurretComponents where
  charge : Charge
  turret : Turret
deriving DecidableEq

/-- Enum TriggerType as consumed by battlefield.rs (Multiply carries the u8
    factor). -/
inductive TriggerType
  | Multiply (factor : Nat)
  | BurstShot
  | ChargedShot
deriving DecidableEq

/-- Struct TriggerEvent from panel_plugin.rs. -/
structure TriggerEvent where
  participant : Participant
  trigger_type : TriggerType
deriving DecidableEq

/-- Body of the match on event.trigger_type in handle_trigger_events, applied
    to one turret whose query lookup succeeded, at time now.  The cooldown
    comparison is written here over exact rationals; handle_trigger_f32 below
    refines it with the binary32 rounding of the f32 subtraction, which
    matters only within one f32 ulp of the cooldown boundary. -/
def handle_trigger (tt : TriggerType) (now : ℚ) (s : TurretComponents) :
    TurretComponents :=
  match tt with
  | .Multiply factor => { s with charge := s.charge.multiply factor }
  | .BurstShot =>
      { charge :=
          if now - s.turret.last_hit_timestamp > TURRET_BOOST_COOLDOWN then
            s.charge.reset_boosted
          else
            s.charge.reset,
        turret :=
          { s.turret with
            firing_queue := (ShotType.Multi, s.charge) :: s.turret.firing_queue } }
  | .ChargedShot =>
      { charge :=
          if now - s.turret.last_hit_timestamp > TURRET_BOOST_COOLDOWN then
            s.charge.reset_boosted
          else
            s.charge.reset,
        turret :=
          { s.turret with
            firing_queue := (ShotType.Charged, s.charge) :: s.turret.firing_queue } }

/-- Round a rational to the nearest IEEE-754 binary32 value: round to
    nearest, ties to even, on a 24-bit significand, with the sign handled
    symmetrically.  IEEE-754 requires the basic operations, the f32
    subtraction of the cooldown test among them, to be correctly rounded, so
    this is the exact value the hardware produces for a real result in the
    normal range; exponent overflow and subnormal underflow are not
    modelled, being irrelevant at the magnitudes the cooldown test sees. -/
def rn32 (x : ℚ) : ℚ :=
  if x = 0 then 0
  else
    let e : ℤ := Int.log 2 |x| - 23
    let s : ℚ := |x| / 2 ^ e
    let n : ℤ := ⌊s⌋
    let m : ℤ :=
      if s - n < 1 / 2 then n
      else if (1 : ℚ) / 2 < s - n then n + 1
      else if n % 2 = 0 then n else n + 1
    (if x < 0 then -1 else 1) * m * 2 ^ e

/-- Body of the match on event.trigger_type as the program computes it: the
    f32 difference time.elapsed_seconds() - turret.last_hit_timestamp is the
    binary32 rounding of the exact difference of the two f32 operands, so
    the cooldown test compares rn32 of the difference against the cooldown
    constant.  Identical to handle_trigger except for that rounding. -/
def handle_trigger_f32 (tt : TriggerType) (now : ℚ) (s : TurretComponents) :
    TurretComponents :=
  match tt with
  | .Multiply factor => { s with charge := s.charge.multiply factor }
  | .BurstShot =>
      { charge :=
          if rn32 (now - s.turret.last_hit_timestamp) > TURRET_BOOST_COOLDOWN then
            s.charge.reset_boosted
          else
            s.charge.reset,
        turret :=
          { s.turret with
            firing_queue := (ShotType.Multi, s.charge) :: s.turret.firing_queue } }
  | .ChargedShot =>
      { charge :=
          if rn32 (now - s.turret.last_hit_timestamp) > TURRET_BOOST_COOLDOWN then
            s.charge.reset_boosted
          else
            s.charge.reset,
        turret :=
          { s.turret with
            firing_queue := (ShotType.Charged, s.charge) :: s.turret.firing_queue } }

/-- System handle_trigger_events from battlefield.rs: process the pending
    trigger events in order.  The map holds, per participant, the components
    of its turret entity if the query lookup succeeds, and none if the turret
    entity was despawned; a lookup miss drops the event silently. -/
def handle_trigger_events (events : List TriggerEvent) (now : ℚ)
    (turrets : ParticipantMap (Option TurretComponents)) :
    ParticipantMap (Option TurretComponents) :=
  match events with
  | [] => turrets
  | e :: rest =>
      match turrets.get e.participant with
      | none => handle_trigger_events rest now turrets
      | some s =>
          handle_trigger_events rest now
            (turrets.set e.participant (some (handle_trigger e.trigger_type now s)))

/-- Sub-charge value of a burst pellet, from the ShotType::Multi arm of
    fire_shots.  Source: match charge.level.checked_sub(MULTI_SHOT_CHARGE_OFFSET)
    with None or Some(0) giving 1 and Some(value) giving value; over Nat both
    fallback arms collapse to level at most the offset. -/
def multi_shot_value (charge : Charge) : Nat :=
  if charge.level ≤ MULTI_SHOT_CHARGE_OFFSET then 1
  else charge.level - MULTI_SHOT_CHARGE_OFFSET

/-- One iteration of the per-turret loop body of fire_shots: pop the back of
    the firing queue; a Charged entry fires whole; a Multi entry fires a
    pellet built by Charge::from_value on multi_shot_value and, when
    checked_sub of the pellet value from the stored value is Some of a nonzero
    remainder, pushes the remainder (level recomputed) onto the back of the
    queue.  Returns the updated turret and the fired (ShotType, Charge), with
    none when the queue was empty.  Geometry, speed and spawning are out of
    this model. -/
def fire_shots_step (t : Turret) : Turret × Option (ShotType × Charge) :=
  match t.firing_queue.getLast? with
  | none => (t, none)
  | some (shot_type, charge) =>
      let popped : Turret := { t with firing_queue := t.firing_queue.dropLast }
      match shot_type with
      | .Charged => (popped, some (ShotType.Charged, charge))
      | .Multi =>
          let shot := Charge.from_value (multi_shot_value charge)
          if charge.value ≤ shot.value then
            (popped, some (ShotType.Multi, shot))
          else
            let remaining :=
              Charge.update_level { charge with value := charge.value - shot.value }
            ({ popped with
                firing_queue := popped.firing_queue ++ [(ShotType.Multi, remaining)] },
             some (ShotType.Multi, shot))

/-- Iterate fire_shots_step a given number of fixed-update ticks. -/
def fire_ticks : Nat → Turret → Turret
  | 0, t => t
  | n + 1, t => fire_ticks n (fire_shots_step t).1

/-- Result of one collision-start event in handle_bullet_turret_collision:
    the bullet charge, the turret charge and the turret component after the
    exchange. -/
structure BulletTurretOutcome where
  bullet_charge : Charge
  turret_charge : Charge
  turret : Turret
deriving DecidableEq

/-- Body of the event loop of handle_bullet_turret_collision for one
    collision-start pair that resolved to a bullet and a turret.  When the
    owners are equal the event is skipped; otherwise both charges lose the
    minimum of the two values and the turret records the current time. -/
def handle_bullet_turret_collision (bullet_owner : Participant)
    (bullet_charge : Charge) (turret_owner : Participant)
    (turret_charge : Charge) (turret : Turret) (now : ℚ) :
    BulletTurretOutcome :=
  if turret_owner = bullet_owner then
    { bullet_charge := bullet_charge, turret_charge := turret_charge, turret := turret }
  else
    let min_value := min bullet_charge.value turret_charge.value
    { bullet_charge := { bullet_charge with value := bullet_charge.value - min_value },
      turret_charge := { turret_charge with value := turret_charge.value - min_value },
      turret := { turret with last_hit_timestamp := now } }

/-- Components of a tile entity touched by handle_bullet_tile_collision: the
    owner, the sprite color and the collision groups. -/
structure Tile where
  owner : Participant
  sprite_color : ColorId
  collision_groups : CollisionGroups
deriving DecidableEq

/-- Collision groups installed on a freshly captured tile, from the
    CollisionGroups::new call in handle_bullet_tile_collision. -/
def captured_tile_groups (bullet_owner : Participant) : CollisionGroups :=
  { memberships := tileGroup bullet_owner,
    filters := all_bullets_except bullet_owner ||| all_new_bullets_except bullet_owner }

/-- Body of the event loop of handle_bullet_tile_collision for one
    collision-start pair that resolved to a bullet and a tile, parametrised by
    the TileColor resource map.  A contact with an owned tile or with an empty
    bullet charge is skipped; otherwise the tile flips to the bullet owner
    (sprite color and collision groups updated to match) and the bullet loses
    exactly one unit of value.  The particle effect spawning is out of this
    model. -/
def handle_bullet_tile_collision (tile_colors : ParticipantMap ColorId)
    (bullet_owner : Participant) (charge : Charge) (tile : Tile) :
    Charge × Tile :=
  if bullet_owner = tile.owner then (charge, tile)
  else if charge.value = 0 then (charge, tile)
  else
    ({ charge with value := charge.value - 1 },
     { owner := bullet_owner,
       sprite_color := tile_colors.get bullet_owner,
       collision_groups := captured_tile_groups bullet_owner })

/-- A bullet contacting a sequence of tiles, one collision-start event per
    tile, threading the bullet charge left to right.  Returns the final
    charge and the tiles after their events. -/
def bullet_tile_contacts (tile_colors : ParticipantMap ColorId)
    (bullet_owner : Participant) : Charge → List Tile → Charge × List Tile
  | charge, [] => (charge, [])
  | charge, tile :: rest =>
      let step := handle_bullet_tile_collision tile_colors bullet_owner charge tile
      let tail := bullet_tile_contacts tile_colors bullet_owner step.1 rest
      (tail.1, step.2 :: tail.2)

/-- Outcome of update_charge_level for one entity whose Charge changed: the
    charge afterwards, the EliminationEvent list sent for it, and whether the
    entity was despawned by this system. -/
structure ChargeLevelOutcome where
  charge : Charge
  events : List Participant
  despawned : Bool
deriving DecidableEq

/-- Body of the query loop of update_charge_level for one changed entity.
    The is_turret flag models Option::is_some on the optional Turret
    component of the query. -/
def update_charge_level (charge : Charge) (participant : Participant)
    (is_turret : Bool) : ChargeLevelOutcome :=
  if 0 < charge.value then
    { charge := charge.update_level, events := [], despawned := false }
  else if is_turret then
    { charge := charge, events := [participant], despawned := false }
  else
    { charge := charge, events := [], despawned := true }

/-- An entity carrying a Participant component, with the marker components
    that the despawn query of handle_elimination filters on. -/
structure EntityRec where
  participant : Participant
  is_tile : Bool
  is_bullet : Bool
deriving DecidableEq

/-- World state touched by handle_elimination: the SurvivorCount resource,
    the per-participant alive flags, and the entities matched by a
    Participant-component query. -/
structure WorldState where
  survivor_count : Nat
  survivors : ParticipantMap Bool
  entities : List EntityRec
deriving DecidableEq

/-- Body of the event loop of handle_elimination for one EliminationEvent.
    The alive flag flips to false, the survivor count drops by one, and the
    despawn query matches entities of that participant that are neither tiles
    nor bullets (the query filter is Without Tile and Without Bullet). -/
def handle_elimination (participant : Participant) (w : WorldState) :
    WorldState :=
  { survivor_count := w.survivor_count - 1,
    survivors := w.survivors.set participant false,
    entities :=
      w.entities.filter fun e =>
        !(e.participant = participant && !e.is_tile && !e.is_bullet) }

/-- Run condition game_is_going from battlefield.rs. -/
def game_is_going (survivor_count : Nat) : Bool :=
  1 < survivor_count

-- Helper lemmas shared by several developments below.

/-- Pin down Nat.clog 2 from a strict lower and a weak upper power bound. -/
lemma clog2_eq_of (k n : Nat) (hlow : 2 ^ k < n) (hhigh : n ≤ 2 ^ (k + 1)) :
    Nat.clog 2 n = k + 1 := by
  have h1 : k < Nat.clog 2 n := (Nat.pow_lt_iff_lt_clog (by norm_num)).1 hlow
  have h2 : Nat.clog 2 n ≤ k + 1 := (Nat.le_pow_iff_clog_le (by norm_num)).1 hhigh
  omega

/-- Unfolding equation for Charge.calculate_level. -/
lemma calculate_level_def (v : Nat) :
    Charge.calculate_level v = Nat.clog 2 v + 1 := rfl

/-- Unfolding equation for the level field after Charge.update_level. -/
lemma update_level_level (c : Charge) :
    (c.update_level).level = Charge.calculate_level c.value := rfl

/-- Unfolding equation for the value field after Charge.update_level. -/
lemma update_level_value (c : Charge) :
    (c.update_level).value = c.value := rfl

/-- Concrete level of a value-1 charge. -/
lemma calculate_level_one : Charge.calculate_level 1 = 1 := by
  rw [calculate_level_def, Nat.clog_one_right]

/-- Concrete level of a value-5 charge. -/
lemma calculate_level_five : Charge.calculate_level 5 = 4 := by
  rw [calculate_level_def, clog2_eq_of 2 5 (by norm_num) (by norm_num)]

/-- The ceiling base-2 logarithm of the largest u64 value. -/
lemma clog_max : Nat.clog 2 U64_MAX = 64 :=
  clog2_eq_of 63 U64_MAX (by norm_num [U64_MAX]) (by norm_num [U64_MAX])

/-- Concrete level of a saturated charge. -/
lemma calculate_level_max : Charge.calculate_level U64_MAX = 65 := by
  rw [calculate_level_def, clog_max]

/-- Reading back the field just written in a ParticipantMap. -/
lemma ParticipantMap.get_set_self {T : Type} (m : ParticipantMap T)
    (p : Participant) (v : T) : (m.set p v).get p = v := by
  cases p <;> rfl

-- Claim theorems.

/-- C1: for every contact-begin event between a bullet and a turret owned by
    a different participant (while the game is going), the handler computes
    shared = min(bullet.value, turret.value), subtracts shared from both
    values, and sets last_hit_timestamp to the current time regardless of
    outcome; the shared amount is at most either value, so neither
    subtraction underflows. -/
theorem bullet_turret_collision_exchange (survivor_count : Nat)
    (_hgame : game_is_going survivor_count = true)
    (bullet_owner turret_owner : Participant) (bc tc : Charge) (t : Turret)
    (now : ℚ) (howner : turret_owner ≠ bullet_owner) :
    (handle_bullet_turret_collision bullet_owner bc turret_owner tc t now).bullet_charge.value
        = bc.value - min bc.value tc.value ∧
    (handle_bullet_turret_collision bullet_owner bc turret_owner tc t now).turret_charge.value
        = tc.value - min bc.value tc.value ∧
    (handle_bullet_turret_collision bullet_owner bc turret_owner tc t now).turret.last_hit_timestamp
        = now ∧
    min bc.value tc.value ≤ bc.value ∧ min bc.value tc.value ≤ tc.value := by
  unfold handle_bullet_turret_collision
  rw [if_neg howner]
  exact ⟨rfl, rfl, rfl, Nat.min_le_left _ _, Nat.min_le_right _ _⟩

/-- Witness for C1 at bullet.value = 5, turret.value = 12: the exchange ends
    with the bullet at 0 and the turret at 7, and the hit time recorded. -/
theorem bullet_turret_collision_exchange_witness :
    (handle_bullet_turret_collision Participant.A ⟨5, 3⟩ Participant.B ⟨12, 4⟩
        ⟨[], 0⟩ 2).bullet_charge.value = 0 ∧
    (handle_bullet_turret_collision Participant.A ⟨5, 3⟩ Participant.B ⟨12, 4⟩
        ⟨[], 0⟩ 2).turret_charge.value = 7 ∧
    (handle_bullet_turret_collision Participant.A ⟨5, 3⟩ Participant.B ⟨12, 4⟩
        ⟨[], 0⟩ 2).turret.last_hit_timestamp = 2 := by
  obtain ⟨h1, h2, h3, -, -⟩ :=
    bullet_turret_collision_exchange 4 rfl Participant.A Participant.B
      ⟨5, 3⟩ ⟨12, 4⟩ ⟨[], 0⟩ 2 (by decide)
  refine ⟨?_, ?_, h3⟩
  · rw [h1]; decide
  · rw [h2]; decide

/-- C3: in update_charge_level, an entity with positive value gets its level
    recomputed; a zero-value turret sends an EliminationEvent for its
    participant and is not despawned by this system; a zero-value non-turret
    is despawned and sends no EliminationEvent. -/
theorem update_charge_level_cases (c : Charge) (p : Participant) (b : Bool) :
    (0 < c.value →
      update_charge_level c p b =
        { charge := c.update_level, events := [], despawned := false }) ∧
    (c.value = 0 → b = true →
      update_charge_level c p b =
        { charge := c, events := [p], despawned := false }) ∧
    (c.value = 0 → b = false →
      update_charge_level c p b =
        { charge := c, events := [], despawned := true }) := by
  refine ⟨fun hpos => ?_, fun hzero hb => ?_, fun hzero hb => ?_⟩
  · simp [update_charge_level, hpos]
  · simp [update_charge_level, hzero, hb]
  · simp [update_charge_level, hzero, hb]

/-- Witness for C3: a zero-value turret yields exactly one elimination event
    and no despawn; a zero-value bullet yields a despawn and no event. -/
theorem update_charge_level_cases_witness :
    update_charge_level ⟨0, 1⟩ Participant.A true =
      { charge := ⟨0, 1⟩, events := [Participant.A], despawned := false } ∧
    update_charge_level ⟨0, 1⟩ Participant.A false =
      { charge := ⟨0, 1⟩, events := [], despawned := true } :=
  ⟨(update_charge_level_cases ⟨0, 1⟩ Participant.A true).2.1 rfl rfl,
   (update_charge_level_cases ⟨0, 1⟩ Participant.A false).2.2 rfl rfl⟩

/-- C5: Charge::multiply sets the value to the product when it fits in u64
    and saturates to u64::MAX otherwise, never wrapping; the level recompute
    step then derives the level from the saturated value, so from value =
    u64::MAX and factor = 4 the value stays u64::MAX and the recomputed
    level is calculate_level u64::MAX = 65. -/
theorem multiply_saturates (c : Charge) (factor : Nat) (hfactor : factor < 256) :
    (c.value * factor ≤ U64_MAX → (c.multiply factor).value = c.value * factor) ∧
    (U64_MAX < c.value * factor → (c.multiply factor).value = U64_MAX) ∧
    ((c.multiply factor).update_level).level
        = Charge.calculate_level (c.multiply factor).value ∧
    (c.value = U64_MAX → factor = 4 →
      (c.multiply factor).value = U64_MAX ∧
      ((c.multiply factor).update_level).level = 65) := by
  refine ⟨fun hle => ?_, fun hlt => ?_, rfl, fun hmax hfour => ?_⟩
  · simp [Charge.multiply, hle]
  · simp [Charge.multiply, Nat.not_le.2 hlt]
  · subst hfour
    have hlt : U64_MAX < c.value * 4 := by rw [hmax]; norm_num [U64_MAX]
    have hval : (Charge.multiply c 4).value = U64_MAX := by
      simp [Charge.multiply, Nat.not_le.2 hlt]
    refine ⟨hval, ?_⟩
    rw [update_level_level, hval, calculate_level_max]

/-- Witness for C5 at value = u64::MAX, factor = 4. -/
theorem multiply_saturates_witness :
    (Charge.multiply ⟨U64_MAX, 65⟩ 4).value = U64_MAX ∧
    ((Charge.multiply ⟨U64_MAX, 65⟩ 4).update_level).level = 65 :=
  (multiply_saturates ⟨U64_MAX, 65⟩ 4 (by norm_num)).2.2.2 rfl rfl

/-- C8 counterexample: the source computes level with a ceiling logarithm,
    not a floor logarithm; at value = 5 the recomputed level is
    ceil(log2 5) + 1 = 4 while the floor formula floor(log2 5) + 1 gives 3. -/
theorem update_level_not_floor_log :
    (Charge.update_level ⟨5, 1⟩).level ≠ Nat.log 2 5 + 1 := by
  have hlog : Nat.log 2 5 = 2 :=
    Nat.log_eq_of_pow_le_of_lt_pow (by norm_num) (by norm_num)
  rw [update_level_level, hlog]
  show Charge.calculate_level 5 ≠ 2 + 1
  rw [calculate_level_five]
  decide

/-- C8 amended: for every charge value between 1 and 2 ^ 40, the range over
    which the f64 computation of the source provably produces the exact
    ceiling logarithm, update_level sets level = ceil(log2 value) + 1, which
    is at least 1, and a value-1 charge gets level exactly 1.  Beyond that
    range the f64 cast and log2 rounding can fall below the exact ceiling
    (value = 2 ^ 60 + 1 gives level 61 in the source, not 62). -/
theorem update_level_is_ceil_log (c : Charge) (_hv : 1 ≤ c.value)
    (_hrange : c.value ≤ 2 ^ 40) :
    (c.update_level).level = Nat.clog 2 c.value + 1 ∧
    1 ≤ (c.update_level).level ∧
    (c.value = 1 → (c.update_level).level = 1) := by
  refine ⟨rfl, ?_, fun hone => ?_⟩
  · rw [update_level_level, calculate_level_def]
    exact Nat.le_add_left 1 _
  · rw [update_level_level, hone]
    exact calculate_level_one

/-- Witness for C8 amended: at value 5 the recomputed level is 4, and at
    value 1 it is 1. -/
theorem update_level_is_ceil_log_witness :
    (Charge.update_level ⟨5, 1⟩).level = 4 ∧
    (Charge.update_level ⟨1, 7⟩).level = 1 := by
  constructor
  · have h := (update_level_is_ceil_log ⟨5, 1⟩ (by norm_num) (by norm_num)).1
    rw [h]
    show Nat.clog 2 5 + 1 = 4
    rw [clog2_eq_of 2 5 (by norm_num) (by norm_num)]
  · exact (update_level_is_ceil_log ⟨1, 7⟩ (by norm_num) (by norm_num)).2.2 rfl

/-- C9: a trigger event whose participant has no living turret entity is a
    silent no-op: it is dropped without any state change and the remaining
    events are still processed. -/
theorem missing_turret_trigger_noop (e : TriggerEvent)
    (rest : List TriggerEvent) (now : ℚ)
    (turrets : ParticipantMap (Option TurretComponents))
    (hmiss : turrets.get e.participant = none) :
    handle_trigger_events (e :: rest) now turrets
        = handle_trigger_events rest now turrets ∧
    handle_trigger_events [e] now turrets = turrets := by
  constructor
  · simp [handle_trigger_events, hmiss]
  · simp [handle_trigger_events, hmiss]

/-- Witness for C9: an event for a despawned turret of participant A leaves
    the turret map untouched and processing moves to the rest. -/
theorem missing_turret_trigger_noop_witness :
    handle_trigger_events
        [⟨Participant.A, TriggerType.BurstShot⟩, ⟨Participant.A, TriggerType.ChargedShot⟩]
        0 ⟨none, none, none, none⟩
      = handle_trigger_events [⟨Participant.A, TriggerType.ChargedShot⟩]
          0 ⟨none, none, none, none⟩ ∧
    handle_trigger_events [⟨Participant.A, TriggerType.BurstShot⟩]
        0 ⟨none, none, none, none⟩
      = ⟨none, none, none, none⟩ :=
  missing_turret_trigger_noop ⟨Participant.A, TriggerType.BurstShot⟩
    [⟨Participant.A, TriggerType.ChargedShot⟩] 0 ⟨none, none, none, none⟩ rfl

/-- C2: on contact-begin between a bullet and a tile not owned by the bullet
    participant, a nonzero bullet charge flips the tile owner to the bullet
    participant with the collision filter and sprite color updated to match
    and costs the bullet exactly one unit of value, while a zero bullet
    charge changes nothing; hence a value-3 bullet contacting four enemy
    tiles in sequence flips exactly the first three and ends at value 0,
    with the fourth contact flipping nothing. -/
theorem bullet_tile_capture (tile_colors : ParticipantMap ColorId)
    (p : Participant) (c : Charge) (t : Tile) (henemy : t.owner ≠ p) :
    (c.value ≠ 0 →
      handle_bullet_tile_collision tile_colors p c t =
        ({ c with value := c.value - 1 },
         { owner := p,
           sprite_color := tile_colors.get p,
           collision_groups := captured_tile_groups p })) ∧
    (c.value = 0 →
      handle_bullet_tile_collision tile_colors p c t = (c, t)) ∧
    (∀ t1 t2 t3 t4 : Tile,
      t1.owner ≠ p → t2.owner ≠ p → t3.owner ≠ p → t4.owner ≠ p →
      c.value = 3 →
      bullet_tile_contacts tile_colors p c [t1, t2, t3, t4] =
        ({ c with value := 0 },
         [{ owner := p, sprite_color := tile_colors.get p,
            collision_groups := captured_tile_groups p },
          { owner := p, sprite_color := tile_colors.get p,
            collision_groups := captured_tile_groups p },
          { owner := p, sprite_color := tile_colors.get p,
            collision_groups := captured_tile_groups p },
          t4])) := by
  refine ⟨fun hnz => ?_, fun hz => ?_, fun t1 t2 t3 t4 h1 h2 h3 h4 hc3 => ?_⟩
  · rw [handle_bullet_tile_collision, if_neg (Ne.symm henemy), if_neg hnz]
  · rw [handle_bullet_tile_collision, if_neg (Ne.symm henemy), if_pos hz]
  · obtain ⟨v, l⟩ := c
    simp only [Charge.mk.injEq] at hc3 ⊢
    subst hc3
    simp [bullet_tile_contacts, handle_bullet_tile_collision,
      Ne.symm h1, Ne.symm h2, Ne.symm h3, Ne.symm h4]

/-- Witness for C2: participant A with a value-3 bullet against four enemy
    tiles captures the first three and leaves the fourth untouched. -/
theorem bullet_tile_capture_witness :
    bullet_tile_contacts ⟨10, 20, 30, 40⟩ Participant.A ⟨3, 2⟩
        [⟨Participant.B, 20, ⟨0, 0⟩⟩, ⟨Participant.B, 20, ⟨0, 0⟩⟩,
         ⟨Participant.C, 30, ⟨0, 0⟩⟩, ⟨Participant.B, 20, ⟨0, 0⟩⟩] =
      (⟨0, 2⟩,
       [⟨Participant.A, 10, captured_tile_groups Participant.A⟩,
        ⟨Participant.A, 10, captured_tile_groups Participant.A⟩,
        ⟨Participant.A, 10, captured_tile_groups Participant.A⟩,
        ⟨Participant.B, 20, ⟨0, 0⟩⟩]) := by
  have h :=
    (bullet_tile_capture ⟨10, 20, 30, 40⟩ Participant.A ⟨3, 2⟩
        ⟨Participant.B, 20, ⟨0, 0⟩⟩ (by decide)).2.2
      ⟨Participant.B, 20, ⟨0, 0⟩⟩ ⟨Participant.B, 20, ⟨0, 0⟩⟩
      ⟨Participant.C, 30, ⟨0, 0⟩⟩ ⟨Participant.B, 20, ⟨0, 0⟩⟩
      (by decide) (by decide) (by decide) (by decide) rfl
  exact h

/-- C6: a BurstShot or ChargedShot trigger for a living turret pushes the
    current charge, tagged Multi or Charged respectively, onto the front of
    the firing queue and then resets the live charge, to the boosted
    constant when now minus last_hit_timestamp strictly exceeds the cooldown
    and to the bare value 1 otherwise; a Multiply trigger multiplies the
    live charge and leaves the queue unchanged. -/
theorem trigger_reset_and_queue (s : TurretComponents) (now : ℚ)
    (factor : Nat) :
    (handle_trigger TriggerType.BurstShot now s).turret.firing_queue
        = (ShotType.Multi, s.charge) :: s.turret.firing_queue ∧
    (handle_trigger TriggerType.ChargedShot now s).turret.firing_queue
        = (ShotType.Charged, s.charge) :: s.turret.firing_queue ∧
    (now - s.turret.last_hit_timestamp > TURRET_BOOST_COOLDOWN →
      (handle_trigger TriggerType.BurstShot now s).charge
          = s.charge.reset_boosted ∧
      (handle_trigger TriggerType.ChargedShot now s).charge
          = s.charge.reset_boosted ∧
      (handle_trigger TriggerType.BurstShot now s).charge.value
          = BOOSTED_TURRET_CHARGE_VALUE) ∧
    (¬ now - s.turret.last_hit_timestamp > TURRET_BOOST_COOLDOWN →
      (handle_trigger TriggerType.BurstShot now s).charge = s.charge.reset ∧
      (handle_trigger TriggerType.ChargedShot now s).charge = s.charge.reset ∧
      (handle_trigger TriggerType.BurstShot now s).charge.value = 1) ∧
    ((handle_trigger (TriggerType.Multiply factor) now s).charge
        = s.charge.multiply factor ∧
     (handle_trigger (TriggerType.Multiply factor) now s).turret = s.turret) := by
  refine ⟨rfl, rfl, fun hboost => ?_, fun hcool => ?_, rfl, rfl⟩
  · refine ⟨?_, ?_, ?_⟩ <;>
      simp [handle_trigger, if_pos hboost, Charge.reset_boosted,
        Charge.update_level, BOOSTED_TURRET_CHARGE_VALUE]
  · refine ⟨?_, ?_, ?_⟩ <;>
      simp [handle_trigger, if_neg hcool, Charge.reset]

/-- Witness for C6: a turret last hit at time 0 fires boosted at time 6 and
    bare at time 1, and the queue receives the pushed charge. -/
theorem trigger_reset_and_queue_witness :
    (handle_trigger TriggerType.BurstShot 6 ⟨⟨3, 2⟩, ⟨[], 0⟩⟩).charge.value = 16 ∧
    (handle_trigger TriggerType.BurstShot 1 ⟨⟨3, 2⟩, ⟨[], 0⟩⟩).charge.value = 1 ∧
    (handle_trigger TriggerType.BurstShot 6 ⟨⟨3, 2⟩, ⟨[], 0⟩⟩).turret.firing_queue
        = [(ShotType.Multi, ⟨3, 2⟩)] := by
  obtain ⟨hq6, -, hboost, -, -⟩ :=
    trigger_reset_and_queue ⟨⟨3, 2⟩, ⟨[], 0⟩⟩ 6 1
  obtain ⟨-, -, -, hcool, -⟩ :=
    trigger_reset_and_queue ⟨⟨3, 2⟩, ⟨[], 0⟩⟩ 1 1
  refine ⟨(hboost ?_).2.2, (hcool ?_).2.2, hq6⟩
  · show (6 : ℚ) - 0 > TURRET_BOOST_COOLDOWN
    norm_num [TURRET_BOOST_COOLDOWN]
  · show ¬ (1 : ℚ) - 0 > TURRET_BOOST_COOLDOWN
    norm_num [TURRET_BOOST_COOLDOWN]

/-- Pin down Int.log 2 of a rational from a weak lower and a strict upper
    power bound. -/
lemma int_log2_eq (k : ℤ) (x : ℚ) (hx : 0 < x)
    (h1 : (2 : ℚ) ^ k ≤ x) (h2 : x < (2 : ℚ) ^ (k + 1)) : Int.log 2 x = k := by
  have ha : k ≤ Int.log 2 x := (Int.zpow_le_iff_le_log (by norm_num) hx).1 h1
  have hb : Int.log 2 x < k + 1 := (Int.lt_zpow_iff_log_lt (by norm_num) hx).1 h2
  omega

/-- Evaluation of rn32 for a positive input whose scaled significand rounds
    down (fractional part below one half). -/
lemma rn32_eval_down (x : ℚ) (k n : ℤ) (hx : 0 < x)
    (h1 : (2 : ℚ) ^ k ≤ x) (h2 : x < (2 : ℚ) ^ (k + 1))
    (hfl : ⌊x / 2 ^ (k - 23)⌋ = n)
    (hfrac : x / 2 ^ (k - 23) - n < 1 / 2) :
    rn32 x = n * 2 ^ (k - 23) := by
  have habs : |x| = x := abs_of_pos hx
  have hlogx : Int.log 2 x = k := int_log2_eq k x hx h1 h2
  simp only [rn32]
  rw [if_neg hx.ne', habs, hlogx, hfl, if_pos hfrac, if_neg (not_lt.2 hx.le),
    one_mul]

/-- The rational 6 is an exact binary32 value. -/
lemma rn32_six : rn32 6 = 6 := by
  have hpow : (2 : ℚ) ^ (2 - 23 : ℤ) = 1 / 2097152 := by norm_num
  have h := rn32_eval_down 6 2 12582912 (by norm_num) (by norm_num) (by norm_num)
    (by rw [hpow, show (6 : ℚ) / (1 / 2097152) = 12582912 by norm_num]; norm_num)
    (by rw [hpow]; norm_num)
  rw [h, hpow]
  norm_num

/-- The rational 5 is an exact binary32 value. -/
lemma rn32_five : rn32 5 = 5 := by
  have hpow : (2 : ℚ) ^ (2 - 23 : ℤ) = 1 / 2097152 := by norm_num
  have h := rn32_eval_down 5 2 10485760 (by norm_num) (by norm_num) (by norm_num)
    (by rw [hpow, show (5 : ℚ) / (1 / 2097152) = 10485760 by norm_num]; norm_num)
    (by rw [hpow]; norm_num)
  rw [h, hpow]
  norm_num

/-- The exact sum 5 + 2 ^ -23 sits a quarter ulp above 5, so binary32
    rounding collapses it back to 5. -/
lemma rn32_five_plus_tiny : rn32 (41943041 / 8388608) = 5 := by
  have hpow : (2 : ℚ) ^ (2 - 23 : ℤ) = 1 / 2097152 := by norm_num
  have h := rn32_eval_down (41943041 / 8388608) 2 10485760 (by norm_num)
    (by norm_num) (by norm_num)
    (by
      rw [hpow, show (41943041 / 8388608 : ℚ) / (1 / 2097152)
          = 41943041 / 4 by norm_num]
      rw [Int.floor_eq_iff]
      constructor <;> norm_num)
    (by rw [hpow]; norm_num)
  rw [h, hpow]
  norm_num

/-- C10 counterexample: the program computes the cooldown difference in f32,
    and at the positive elapsed time 2 ^ -23 (= 1 / 8388608 s) the f32
    difference rounds to exactly the cooldown, so the strict comparison
    fails and the fresh turret takes the bare reset to 1, not the boosted
    16 the claim asserts for every positive elapsed time. -/
theorem fresh_turret_tiny_time_not_boosted :
    (0 : ℚ) < 1 / 8388608 ∧
    (handle_trigger_f32 TriggerType.BurstShot (1 / 8388608)
        ⟨⟨7, 3⟩, Turret.default⟩).charge.value = 1 ∧
    (handle_trigger_f32 TriggerType.BurstShot (1 / 8388608)
        ⟨⟨7, 3⟩, Turret.default⟩).charge.value ≠ BOOSTED_TURRET_CHARGE_VALUE := by
  have harg : (1 / 8388608 : ℚ) - Turret.default.last_hit_timestamp
      = 41943041 / 8388608 := by
    norm_num [Turret.default, TURRET_BOOST_COOLDOWN]
  have hval : (handle_trigger_f32 TriggerType.BurstShot (1 / 8388608)
      ⟨⟨7, 3⟩, Turret.default⟩).charge.value = 1 := by
    simp only [handle_trigger_f32, harg, rn32_five_plus_tiny,
      if_neg (by norm_num [TURRET_BOOST_COOLDOWN] :
        ¬ (5 : ℚ) > TURRET_BOOST_COOLDOWN)]
    rfl
  refine ⟨by norm_num, hval, ?_⟩
  rw [hval]
  decide

/-- C10 amended: a freshly created turret has last_hit_timestamp equal to
    minus the boost cooldown, and its first BurstShot or ChargedShot
    trigger, with no intervening hit, takes the boosted reset (value 16)
    exactly when the binary32 rounding of now - last_hit_timestamp strictly
    exceeds the cooldown: this holds at elapsed time 1, while at elapsed
    time exactly 0, and also at tiny positive elapsed times whose f32
    difference rounds back to the cooldown such as 2 ^ -23, the strict
    comparison fails and the bare reset to value 1 is taken. -/
theorem fresh_turret_boost_threshold (c : Charge) (t : ℚ) (tt : TriggerType)
    (htt : tt = TriggerType.BurstShot ∨ tt = TriggerType.ChargedShot) :
    Turret.default.last_hit_timestamp = -TURRET_BOOST_COOLDOWN ∧
    (rn32 (t - Turret.default.last_hit_timestamp) > TURRET_BOOST_COOLDOWN →
      (handle_trigger_f32 tt t ⟨c, Turret.default⟩).charge.value
          = BOOSTED_TURRET_CHARGE_VALUE) ∧
    (¬ rn32 (t - Turret.default.last_hit_timestamp) > TURRET_BOOST_COOLDOWN →
      (handle_trigger_f32 tt t ⟨c, Turret.default⟩).charge.value = 1) ∧
    (handle_trigger_f32 tt 1 ⟨c, Turret.default⟩).charge.value
        = BOOSTED_TURRET_CHARGE_VALUE ∧
    (handle_trigger_f32 tt 0 ⟨c, Turret.default⟩).charge.value = 1 ∧
    (handle_trigger_f32 tt (1 / 8388608) ⟨c, Turret.default⟩).charge.value
        = 1 := by
  have harg1 : (1 : ℚ) - Turret.default.last_hit_timestamp = 6 := by
    norm_num [Turret.default, TURRET_BOOST_COOLDOWN]
  have harg0 : (0 : ℚ) - Turret.default.last_hit_timestamp = 5 := by
    norm_num [Turret.default, TURRET_BOOST_COOLDOWN]
  have hargt : (1 / 8388608 : ℚ) - Turret.default.last_hit_timestamp
      = 41943041 / 8388608 := by
    norm_num [Turret.default, TURRET_BOOST_COOLDOWN]
  have hno5 : ¬ (5 : ℚ) > TURRET_BOOST_COOLDOWN := by
    norm_num [TURRET_BOOST_COOLDOWN]
  have hyes6 : (6 : ℚ) > TURRET_BOOST_COOLDOWN := by
    norm_num [TURRET_BOOST_COOLDOWN]
  refine ⟨rfl, fun hb => ?_, fun hnb => ?_, ?_, ?_, ?_⟩ <;> rcases htt with rfl | rfl
  · simp only [handle_trigger_f32, if_pos hb]
    rfl
  · simp only [handle_trigger_f32, if_pos hb]
    rfl
  · simp only [handle_trigger_f32, if_neg hnb]
    rfl
  · simp only [handle_trigger_f32, if_neg hnb]
    rfl
  · simp only [handle_trigger_f32, harg1, rn32_six, if_pos hyes6]
    rfl
  · simp only [handle_trigger_f32, harg1, rn32_six, if_pos hyes6]
    rfl
  · simp only [handle_trigger_f32, harg0, rn32_five, if_neg hno5]
    rfl
  · simp only [handle_trigger_f32, harg0, rn32_five, if_neg hno5]
    rfl
  · simp only [handle_trigger_f32, hargt, rn32_five_plus_tiny, if_neg hno5]
    rfl
  · simp only [handle_trigger_f32, hargt, rn32_five_plus_tiny, if_neg hno5]
    rfl

/-- Witness for C10 amended: at elapsed time 1 the first BurstShot resets
    the fresh turret to the boosted value 16, and at elapsed time 0 to 1. -/
theorem fresh_turret_boost_threshold_witness :
    (handle_trigger_f32 TriggerType.BurstShot 1 ⟨⟨7, 3⟩, Turret.default⟩).charge.value
        = BOOSTED_TURRET_CHARGE_VALUE ∧
    (handle_trigger_f32 TriggerType.BurstShot 0 ⟨⟨7, 3⟩, Turret.default⟩).charge.value
        = 1 := by
  obtain ⟨-, -, -, h1, h0, -⟩ :=
    fresh_turret_boost_threshold ⟨7, 3⟩ 0 TriggerType.BurstShot (Or.inl rfl)
  exact ⟨h1, h0⟩

/-- C7 counterexample: handle_elimination despawns only entities that are
    neither tiles nor bullets, so an in-flight bullet of the eliminated
    participant, a non-tile entity tagged with that participant, survives
    the event, contrary to the claim that all non-tile entities are gone. -/
theorem elimination_keeps_bullets :
    (handle_elimination Participant.A
        ⟨4, ⟨true, true, true, true⟩, [⟨Participant.A, false, true⟩]⟩).entities
      = [⟨Participant.A, false, true⟩] ∧
    (⟨Participant.A, false, true⟩ : EntityRec).participant = Participant.A ∧
    (⟨Participant.A, false, true⟩ : EntityRec).is_tile = false := by
  decide

/-- C7 amended: on an EliminationEvent the alive flag of the eliminated
    participant flips to false, the survivor count drops by exactly 1, and
    every entity of that participant that is neither a tile nor a bullet is
    despawned; tiles keep their owner, and the participant in-flight bullets
    also survive (the despawn query excludes both tiles and bullets). -/
theorem elimination_spec (p : Participant) (w : WorldState)
    (hpos : 0 < w.survivor_count) :
    (handle_elimination p w).survivors.get p = false ∧
    (handle_elimination p w).survivor_count + 1 = w.survivor_count ∧
    (∀ e ∈ (handle_elimination p w).entities,
        ¬(e.participant = p ∧ e.is_tile = false ∧ e.is_bullet = false)) ∧
    (∀ e ∈ w.entities,
        (e.participant ≠ p ∨ e.is_tile = true ∨ e.is_bullet = true) →
        e ∈ (handle_elimination p w).entities) := by
  refine ⟨ParticipantMap.get_set_self w.survivors p false, by
    show w.survivor_count - 1 + 1 = w.survivor_count
    omega, fun e he => ?_, fun e he hkeep => ?_⟩
  · intro hc
    obtain ⟨hp, ht, hb⟩ := hc
    simp only [handle_elimination, List.mem_filter, hp, ht, hb] at he
    simp at he
  · simp only [handle_elimination, List.mem_filter]
    refine ⟨he, ?_⟩
    rcases hkeep with h | h | h
    · simp [h]
    · simp [h]
    · simp [h]

/-- Witness for C7 amended: eliminating participant A in a world with a
    turret of A, a tile of A and a bullet of A removes exactly the turret,
    flips the alive flag and drops the survivor count from 4 to 3. -/
theorem elimination_spec_witness :
    (handle_elimination Participant.A
        ⟨4, ⟨true, true, true, true⟩,
         [⟨Participant.A, false, false⟩, ⟨Participant.A, true, false⟩,
          ⟨Participant.A, false, true⟩]⟩).survivors.get Participant.A = false ∧
    (handle_elimination Participant.A
        ⟨4, ⟨true, true, true, true⟩,
         [⟨Participant.A, false, false⟩, ⟨Participant.A, true, false⟩,
          ⟨Participant.A, false, true⟩]⟩).survivor_count + 1 = 4 := by
  obtain ⟨hflag, hcount, -, -⟩ :=
    elimination_spec Participant.A
      ⟨4, ⟨true, true, true, true⟩,
       [⟨Participant.A, false, false⟩, ⟨Participant.A, true, false⟩,
        ⟨Participant.A, false, true⟩]⟩ (by norm_num)
  exact ⟨hflag, hcount⟩

/-- The pellet value equals the claimed max form. -/
lemma multi_shot_value_eq (c : Charge) :
    multi_shot_value c = max 1 (c.level - MULTI_SHOT_CHARGE_OFFSET) := by
  unfold multi_shot_value
  split_ifs with h <;> omega

/-- The pellet value is always at least 1. -/
lemma one_le_multi_shot_value (c : Charge) : 1 ≤ multi_shot_value c := by
  unfold multi_shot_value
  split_ifs with h
  · exact Nat.le_refl 1
  · omega

/-- Unfolding equation for the value of Charge.from_value. -/
lemma from_value_value (v : Nat) : (Charge.from_value v).value = v := rfl

/-- Reduction of fire_shots_step on a queue holding a single Multi entry. -/
lemma fire_shots_step_single_multi (c : Charge) (ts : ℚ) :
    fire_shots_step ⟨[(ShotType.Multi, c)], ts⟩ =
      if c.value ≤ multi_shot_value c then
        (⟨[], ts⟩, some (ShotType.Multi, Charge.from_value (multi_shot_value c)))
      else
        (⟨[(ShotType.Multi,
             Charge.update_level { c with value := c.value - multi_shot_value c })], ts⟩,
         some (ShotType.Multi, Charge.from_value (multi_shot_value c))) := by
  simp only [fire_shots_step, List.getLast?, List.getLast, List.dropLast,
    from_value_value, List.nil_append]

/-- Ticking an idle turret leaves it idle. -/
lemma fire_ticks_nil (n : Nat) (ts : ℚ) : fire_ticks n ⟨[], ts⟩ = ⟨[], ts⟩ := by
  induction n with
  | zero => rfl
  | succ n ih => exact ih

/-- A single queued Multi entry with stored value at most n drains to an
    empty queue within n + 1 ticks. -/
lemma fire_ticks_drain (n : Nat) : ∀ (c : Charge) (ts : ℚ), c.value ≤ n →
    (fire_ticks (n + 1) ⟨[(ShotType.Multi, c)], ts⟩).firing_queue = [] := by
  induction n with
  | zero =>
      intro c ts hc
      have h0 : c.value ≤ multi_shot_value c := by
        have h1 := one_le_multi_shot_value c
        omega
      show (fire_ticks 0 (fire_shots_step ⟨[(ShotType.Multi, c)], ts⟩).1).firing_queue = []
      rw [fire_shots_step_single_multi, if_pos h0]
      rfl
  | succ n ih =>
      intro c ts hc
      show (fire_ticks (n + 1)
        (fire_shots_step ⟨[(ShotType.Multi, c)], ts⟩).1).firing_queue = []
      rw [fire_shots_step_single_multi]
      by_cases h : c.value ≤ multi_shot_value c
      · rw [if_pos h]
        show (fire_ticks (n + 1) ⟨[], ts⟩).firing_queue = []
        rw [fire_ticks_nil]
      · rw [if_neg h]
        show (fire_ticks (n + 1)
          ⟨[(ShotType.Multi,
              Charge.update_level { c with value := c.value - multi_shot_value c })],
            ts⟩).firing_queue = []
        refine ih _ ts ?_
        rw [update_level_value]
        have h1 := one_le_multi_shot_value c
        show c.value - multi_shot_value c ≤ n
        omega

/-- C4: popping a Multi queue entry with charge c fires a pellet of value
    max(1, c.level - MULTI_SHOT_CHARGE_OFFSET); when c.value minus the
    pellet value is nonzero, the remainder with its level recomputed is
    pushed back onto the queue, otherwise the entry is dropped; and a single
    Multi entry always drains to an empty queue within c.value + 1 ticks,
    because the stored value strictly decreases or the entry is removed. -/
theorem multi_shot_fire_and_drain (c : Charge) (ts : ℚ) :
    (fire_shots_step ⟨[(ShotType.Multi, c)], ts⟩).2 =
        some (ShotType.Multi,
          Charge.from_value (max 1 (c.level - MULTI_SHOT_CHARGE_OFFSET))) ∧
    ((fire_shots_step ⟨[(ShotType.Multi, c)], ts⟩).1.firing_queue =
      if c.value - max 1 (c.level - MULTI_SHOT_CHARGE_OFFSET) = 0 then []
      else
        [(ShotType.Multi,
          Charge.update_level
            { c with
              value := c.value - max 1 (c.level - MULTI_SHOT_CHARGE_OFFSET) })]) ∧
    (fire_ticks (c.value + 1) ⟨[(ShotType.Multi, c)], ts⟩).firing_queue = [] := by
  have hmax := multi_shot_value_eq c
  refine ⟨?_, ?_, fire_ticks_drain c.value c ts (Nat.le_refl _)⟩
  · rw [fire_shots_step_single_multi, ← hmax]
    by_cases h : c.value ≤ multi_shot_value c
    · rw [if_pos h]
    · rw [if_neg h]
  · rw [fire_shots_step_single_multi, ← hmax]
    by_cases h : c.value ≤ multi_shot_value c
    · rw [if_pos h, if_pos (Nat.sub_eq_zero_of_le h)]
    · rw [if_neg h, if_neg (by omega : ¬ c.value - multi_shot_value c = 0)]

end MultiplyOrRelease
